import Mathlib

/-!
Verification of the CQRS dispatch library (command bus, query bus, Result model,
pipeline behaviors). The TypeScript sources are shallowly embedded: sequential
JS computation with shared mutable state and exceptions is modelled by the
`Eff` monad below (state survives a throw, as in JS); thrown JS values are
modelled by `Thrown` (an `Error` instance carries its `name` and `message`
fields; any other thrown value is `nonError`).
-/

set_option autoImplicit false

namespace AdonisCqrs

/-- A JS `Error` object, observed through its `name` and `message` fields.
`new Error(msg)` yields name `"Error"`; the library's error classes in
`errors.ts` override `name` explicitly. -/
structure JsError where
  name : String
  message : String
  deriving DecidableEq, Repr

/-- A thrown JS value: either an `Error` instance, or any other value
(`error instanceof Error` is false); the payload string is an opaque
stand-in for that value. -/
inductive Thrown where
  | jsError (e : JsError)
  | nonError (v : String)
  deriving DecidableEq, Repr

/-- Sequential JS computation: a shared mutable log (modelling observable
shared state such as the spec's order-recording list) together with either a
normal return or a thrown value. State mutations persist across a throw. -/
abbrev Eff (α : Type) : Type := List String → List String × Except Thrown α

def Eff.pure {α : Type} (a : α) : Eff α := fun s => (s, Except.ok a)

def Eff.bind {α β : Type} (m : Eff α) (f : α → Eff β) : Eff β := fun s =>
  match m s with
  | (s1, Except.ok a) => f a s1
  | (s1, Except.error t) => (s1, Except.error t)

def Eff.throw {α : Type} (t : Thrown) : Eff α := fun s => (s, Except.error t)

def Eff.log (msg : String) : Eff Unit := fun s => (s ++ [msg], Except.ok ())

/-- JS `try { m } catch (t) { h t }`. -/
def Eff.tryCatch {α : Type} (m : Eff α) (h : Thrown → Eff α) : Eff α := fun s =>
  match m s with
  | (s1, Except.ok a) => (s1, Except.ok a)
  | (s1, Except.error t) => h t s1

/-- `result.ts`: the error payload of an `Err`. The class is generic in
`TError` (default `string[]`); `getErrors`/`unwrap` branch on
`Array.isArray(this.error)`, so the payload is either a string list or some
other value observed through `String(error)`. -/
inductive ErrPayload where
  | list (errors : List String)
  | nonList (stringified : String)
  deriving DecidableEq, Repr

/-- `result.ts`: `Result<TSuccess> = Ok<TSuccess> | Err`. -/
inductive Result (α : Type) where
  | Ok (value : α)
  | Err (error : ErrPayload)
  deriving DecidableEq, Repr

/-- `Ok.isOk` / `Err.isOk`. -/
def Result.isOk {α : Type} : Result α → Bool
  | .Ok _ => true
  | .Err _ => false

/-- `Ok.isErr` / `Err.isErr`. -/
def Result.isErr {α : Type} : Result α → Bool
  | .Ok _ => false
  | .Err _ => true

/-- `Ok.map`: `new Ok(fn(this.value))`; `Err.map`: `return this` (fn is the
ignored `_fn`, never invoked). -/
def Result.map {α β : Type} (r : Result α) (fn : α → β) : Result β :=
  match r with
  | .Ok v => .Ok (fn v)
  | .Err e => .Err e

/-- `Ok.unwrapOr`: `return this.value`; `Err.unwrapOr`: `return defaultValue`. -/
def Result.unwrapOr {α : Type} (r : Result α) (defaultValue : α) : α :=
  match r with
  | .Ok v => v
  | .Err _ => defaultValue

/-- `Err.getErrors`: `Array.isArray(this.error) ? this.error : [String(this.error)]`. -/
def ErrPayload.getErrors : ErrPayload → List String
  | .list es => es
  | .nonList s => [s]

/-- `Ok.unwrap`: `return this.value`.
`Err.unwrap`: `throw new Error(this.error.join(', '))` when the payload is an
array, else `throw new Error(String(this.error))`. Note both branches throw a
plain built-in `Error` (name `"Error"`). -/
def Result.unwrap {α : Type} : Result α → Except Thrown α
  | .Ok v => Except.ok v
  | .Err (.list es) =>
      Except.error (Thrown.jsError ⟨"Error", String.intercalate ", " es⟩)
  | .Err (.nonList s) => Except.error (Thrown.jsError ⟨"Error", s⟩)

/-- Helper `ok(value)`. -/
def ok {α : Type} (value : α) : Result α := Result.Ok value

/-- Helper `err(errors: string[])`. -/
def err {α : Type} (errors : List String) : Result α := Result.Err (.list errors)

/-- Helper `errMessage(message)`: `new Err([message])`. -/
def errMessage {α : Type} (message : String) : Result α := Result.Err (.list [message])

/-- `errors.ts`: `HandlerNotFoundError extends CQRError`; message
`` `No handler registered for ${type}: ${identifier}` `` and
`this.name = 'HandlerNotFoundError'`. -/
def HandlerNotFoundError (type identifier : String) : JsError :=
  ⟨"HandlerNotFoundError", "No handler registered for " ++ type ++ ": " ++ identifier⟩

/-- Outcome of `command.validate()`: `{ isValid, errors? }`; `errors = none`
models a falsy (absent) `errors` field. -/
structure Validation where
  isValid : Bool
  errors : Option (List String)

/-- A command value: `ctor` is `command.constructor.name`; `validate = some run`
models a command exposing a `validate()` method whose call behaves as `run`
(`run` may itself throw); the inner `Option` models a falsy return value. -/
structure Cmd where
  ctor : String
  validate : Option (Eff (Option Validation)) := none

/-- A query value: `ctor` is `query.constructor.name`. -/
structure Query where
  ctor : String

/-- `ICommandHandler.handle`, as invoked by the bus. -/
abbrev ICommandHandler (α : Type) : Type := Cmd → Eff (Result α)

/-- `CommandBehavior.handle(command, next)`. -/
abbrev CommandBehavior (α : Type) : Type :=
  Cmd → (Cmd → Eff (Result α)) → Eff (Result α)

/-- `IQueryHandler.handle`, as invoked by the bus (bare value, no Result). -/
abbrev IQueryHandler (α : Type) : Type := Query → Eff α

/-- `QueryBehavior.handle(query, next)`. -/
abbrev QueryBehavior (α : Type) : Type := Query → (Query → Eff α) → Eff α

/-- JS `Map.prototype.set`: replace the entry in place when the key is
present, else append a new entry. -/
def mapSet {β : Type} (m : List (String × β)) (k : String) (v : β) :
    List (String × β) :=
  if m.any (fun p => p.1 == k) then
    m.map (fun p => if p.1 == k then (k, v) else p)
  else
    m ++ [(k, v)]

/-- JS `Map.prototype.get` (`undefined` ↦ `none`). -/
def mapGet {β : Type} (m : List (String × β)) (k : String) : Option β :=
  (m.find? (fun p => p.1 == k)).map (fun p => p.2)

/-- `CommandBus`: `handlers` map and `behaviors` array. -/
structure CommandBus (α : Type) where
  handlers : List (String × ICommandHandler α) := []
  behaviors : List (CommandBehavior α) := []

/-- `CommandBus.register`: `this.handlers.set(commandIdentifier, handler)`. -/
def CommandBus.register {α : Type} (bus : CommandBus α) (commandIdentifier : String)
    (handler : ICommandHandler α) : CommandBus α :=
  { bus with handlers := mapSet bus.handlers commandIdentifier handler }

/-- `CommandBus.use`: `this.behaviors.push(behavior)`. -/
def CommandBus.use {α : Type} (bus : CommandBus α) (behavior : CommandBehavior α) :
    CommandBus α :=
  { bus with behaviors := bus.behaviors ++ [behavior] }

/-- The message the innermost stage reports for a caught thrown value:
`error instanceof Error ? error.message : 'Command execution failed'`. -/
def commandFaultMessage : Thrown → String
  | .jsError e => e.message
  | .nonError _ => "Command execution failed"

/-- The initial `pipeline` closure of `CommandBus.buildPipeline`:
`try { return await handler.handle(cmd) } catch (error) { return err([...]) }`. -/
def CommandBus.innermostStage {α : Type} (handler : ICommandHandler α) :
    Cmd → Eff (Result α) := fun cmd =>
  Eff.tryCatch (handler cmd) (fun error => Eff.pure (err [commandFaultMessage error]))

/-- `CommandBus.buildPipeline`: the `for (i = length - 1; i >= 0; i--)` loop
wrapping `pipeline` with `behaviors[i]` from the last index down to 0 is
exactly a right fold over `behaviors` starting from the innermost stage. -/
def CommandBus.buildPipeline {α : Type} (bus : CommandBus α)
    (handler : ICommandHandler α) : Cmd → Eff (Result α) :=
  bus.behaviors.foldr (fun behavior next => fun cmd => behavior cmd next)
    (CommandBus.innermostStage handler)

/-- `CommandBus.execute`: derive the identifier from `constructor.name`, look
up the handler (absent ⇒ `err([...])` returned normally), else run the built
pipeline on the command. -/
def CommandBus.execute {α : Type} (bus : CommandBus α) (command : Cmd) :
    Eff (Result α) :=
  match mapGet bus.handlers command.ctor with
  | none => Eff.pure (err ["No handler registered for command: " ++ command.ctor])
  | some handler => bus.buildPipeline handler command

/-- `QueryBus`: `handlers` map and `behaviors` array. -/
structure QueryBus (α : Type) where
  handlers : List (String × IQueryHandler α) := []
  behaviors : List (QueryBehavior α) := []

/-- `QueryBus.register`: `this.handlers.set(queryIdentifier, handler)`. -/
def QueryBus.register {α : Type} (bus : QueryBus α) (queryIdentifier : String)
    (handler : IQueryHandler α) : QueryBus α :=
  { bus with handlers := mapSet bus.handlers queryIdentifier handler }

/-- `QueryBus.use`: `this.behaviors.push(behavior)`. -/
def QueryBus.use {α : Type} (bus : QueryBus α) (behavior : QueryBehavior α) :
    QueryBus α :=
  { bus with behaviors := bus.behaviors ++ [behavior] }

/-- `QueryBus.buildPipeline`: same right fold as the command bus, but the
initial `pipeline` is the bare `(q) => handler.handle(q)` — no try/catch. -/
def QueryBus.buildPipeline {α : Type} (bus : QueryBus α)
    (handler : IQueryHandler α) : Query → Eff α :=
  bus.behaviors.foldr (fun behavior next => fun q => behavior q next)
    (fun q => handler q)

/-- `QueryBus.execute`: absent handler ⇒ `throw new HandlerNotFoundError('query', id)`;
else run the built pipeline on the query. -/
def QueryBus.execute {α : Type} (bus : QueryBus α) (query : Query) : Eff α :=
  match mapGet bus.handlers query.ctor with
  | none => Eff.throw (Thrown.jsError (HandlerNotFoundError "query" query.ctor))
  | some handler => bus.buildPipeline handler query

/-- `ValidationCommandBehavior.handle`: when the command has a `validate`
method, await it; `if (validation && !validation.isValid)` return
`err(validation.errors || ['Validation failed'])`; otherwise `next(command)`. -/
def ValidationCommandBehavior.handle {α : Type} (command : Cmd)
    (next : Cmd → Eff (Result α)) : Eff (Result α) :=
  match command.validate with
  | some run =>
      Eff.bind run (fun validation =>
        match validation with
        | some v =>
            if !v.isValid then
              Eff.pure (err (v.errors.getD ["Validation failed"]))
            else
              next command
        | none => next command)
  | none => next command

/-- Test scaffold for order observation: a behavior that records entry on the
shared log, calls `next`, then records exit (the spec's shared mutable
order-recording list observed by each behavior). -/
def orderBehavior {α : Type} (tag : String) : CommandBehavior α :=
  fun command next =>
    Eff.bind (Eff.log (tag ++ ":in")) (fun _ =>
      Eff.bind (next command) (fun r =>
        Eff.bind (Eff.log (tag ++ ":out")) (fun _ => Eff.pure r)))

/-- Test scaffold: a handler that records its invocation and returns `Ok 7`. -/
def orderHandler : ICommandHandler Nat :=
  fun _ => Eff.bind (Eff.log "H") (fun _ => Eff.pure (ok 7))

end AdonisCqrs

namespace AdonisCqrs

/-- Replacing the value at an already-present key, `find?` retrieves the new
entry. -/
theorem find?_set_of_any {β : Type} (k : String) (v : β) (m : List (String × β))
    (h : m.any (fun p => p.1 == k) = true) :
    (m.map (fun p => if p.1 == k then (k, v) else p)).find? (fun p => p.1 == k)
      = some (k, v) := by
  induction m with
  | nil => simp at h
  | cons a tl ih =>
      rw [List.any_cons] at h
      rw [List.map_cons]
      cases hk : (a.1 == k) with
      | true =>
          rw [if_pos rfl]
          exact List.find?_cons_of_pos _ (by simp)
      | false =>
          rw [hk] at h
          simp only [Bool.false_or] at h
          rw [if_neg (by simp), List.find?_cons_of_neg _ (by simp [hk])]
          exact ih h

/-- Appending a fresh entry for an absent key, `find?` retrieves it. -/
theorem find?_append_sing {β : Type} (k : String) (v : β) (m : List (String × β))
    (h : m.any (fun p => p.1 == k) = false) :
    (m ++ [(k, v)]).find? (fun p => p.1 == k) = some (k, v) := by
  induction m with
  | nil =>
      rw [List.nil_append]
      exact List.find?_cons_of_pos _ (by simp)
  | cons a tl ih =>
      rw [List.any_cons] at h
      cases hk : (a.1 == k) with
      | true => rw [hk] at h; simp at h
      | false =>
          rw [hk] at h
          simp only [Bool.false_or] at h
          rw [List.cons_append, List.find?_cons_of_neg _ (by simp [hk])]
          exact ih h

/-- `Map.set` then `Map.get` on the same key yields the value just stored. -/
theorem mapGet_mapSet {β : Type} (m : List (String × β)) (k : String) (v : β) :
    mapGet (mapSet m k v) k = some v := by
  cases hany : m.any (fun p => p.1 == k) with
  | true =>
      rw [mapGet, mapSet, if_pos hany, find?_set_of_any k v m hany]
      rfl
  | false =>
      rw [mapGet, mapSet, if_neg (by simp [hany]), find?_append_sing k v m hany]
      rfl

end AdonisCqrs

namespace AdonisCqrs

/-- Claim C7: for every function `f`, `map f` on `Ok v` returns `Ok (f v)`, and
`map f` on any `Err` returns the same `Err` unchanged; the third conjunct shows
the result on `Err` is independent of the supplied function (`_fn` is never
invoked in the source). -/
theorem map_ok_err_spec :
    (∀ (α β : Type) (f : α → β) (v : α), (Result.Ok v).map f = Result.Ok (f v))
    ∧ (∀ (α β : Type) (f : α → β) (e : ErrPayload),
        (Result.Err e : Result α).map f = (Result.Err e : Result β))
    ∧ (∀ (α β : Type) (f g : α → β) (e : ErrPayload),
        (Result.Err e : Result α).map f = (Result.Err e : Result α).map g) :=
  ⟨fun _ _ _ _ => rfl, fun _ _ _ _ => rfl, fun _ _ _ _ _ => rfl⟩

/-- Claim C6 counterexample: on the concrete input `Err ["a", "b"]`, `unwrap`
throws a plain built-in `Error` — its `name` field is `"Error"`, not
`"UnwrapError"` (the source defines no `UnwrapError` class anywhere), so the
claim that the raised fault is an `UnwrapError` fails, although the message is
indeed the list joined with `", "`. -/
theorem unwrap_err_not_unwrapError :
    (Result.Err (ErrPayload.list ["a", "b"]) : Result Nat).unwrap
        = Except.error (Thrown.jsError ⟨"Error", "a, b"⟩)
    ∧ ("Error" : String) ≠ "UnwrapError" :=
  ⟨rfl, by decide⟩

/-- Claim C6 (amended): for every `Err` result, `unwrap` fails with a plain
`Error` (name `"Error"`) whose message is the error list joined with `", "`
(or the stringified payload when it is not a list); for every `Ok v`, `unwrap`
returns `v`. All other Result operations are embedded as pure total functions
(they cannot raise), so `unwrap` is the only raising operation of the model. -/
theorem unwrap_spec :
    (∀ (α : Type) (v : α), (Result.Ok v).unwrap = Except.ok v)
    ∧ (∀ (α : Type) (es : List String),
        (Result.Err (ErrPayload.list es) : Result α).unwrap
          = Except.error (Thrown.jsError ⟨"Error", String.intercalate ", " es⟩))
    ∧ (∀ (α : Type) (s : String),
        (Result.Err (ErrPayload.nonList s) : Result α).unwrap
          = Except.error (Thrown.jsError ⟨"Error", s⟩)) :=
  ⟨fun _ _ => rfl, fun _ _ => rfl, fun _ _ => rfl⟩

/-- Claim C8: on both buses, registering twice under the same identifier keeps
only the second handler (JS `Map.set` overwrite). In the embedding `register`
is a total pure function, so it returns normally and raises no
duplicate-registration error by construction. -/
theorem register_overwrite :
    ∀ (α : Type) (cb : CommandBus α) (qb : QueryBus α) (id : String)
      (h1 h2 : ICommandHandler α) (g1 g2 : IQueryHandler α),
      mapGet ((cb.register id h1).register id h2).handlers id = some h2
      ∧ mapGet ((qb.register id g1).register id g2).handlers id = some g2 :=
  fun _ _ _ id _ h2 _ g2 => ⟨mapGet_mapSet _ id h2, mapGet_mapSet _ id g2⟩

/-- Claim C3: a command whose type identifier has no registered handler makes
`execute` return `Err (["No handler registered for command: " ++ identifier])`
as a normal value — the outcome is `Except.ok`, i.e. no fault is raised. -/
theorem commandBus_unregistered_err {α : Type} (bus : CommandBus α) (cmd : Cmd)
    (s : List String) (h : mapGet bus.handlers cmd.ctor = none) :
    bus.execute cmd s
      = (s, Except.ok (err ["No handler registered for command: " ++ cmd.ctor])) := by
  simp only [CommandBus.execute, h, Eff.pure]

/-- Witness for `commandBus_unregistered_err`: the empty bus and a command
named `Foo`. -/
theorem commandBus_unregistered_err_witness :
    CommandBus.execute (⟨[], []⟩ : CommandBus Nat) ⟨"Foo", none⟩ []
      = ([], Except.ok (err ["No handler registered for command: Foo"])) :=
  commandBus_unregistered_err (⟨[], []⟩ : CommandBus Nat) ⟨"Foo", none⟩ [] rfl

end AdonisCqrs

namespace AdonisCqrs

/-- Claim C2: with behaviors added via `use` in order `[A, B]` and handler `H`,
the pipeline built by folding from the last-registered behavior to the first is
exactly `A` outermost, then `B`, then the innermost handler stage, on both
buses; concretely, executing such a command bus with order-recording behaviors
logs `A:in, B:in, H, B:out, A:out` and returns `H`'s result to the caller. -/
theorem pipeline_behavior_order :
    (∀ (α : Type) (hs : List (String × ICommandHandler α))
        (A B : CommandBehavior α) (H : ICommandHandler α),
        (((CommandBus.mk hs []).use A).use B).buildPipeline H
          = fun cmd => A cmd (fun c => B c (CommandBus.innermostStage H)))
    ∧ (∀ (α : Type) (hs : List (String × IQueryHandler α))
        (A B : QueryBehavior α) (H : IQueryHandler α),
        (((QueryBus.mk hs []).use A).use B).buildPipeline H
          = fun q => A q (fun q2 => B q2 (fun q3 => H q3)))
    ∧ ((((CommandBus.mk [] []).register "TestCommand" orderHandler).use
          (orderBehavior "A")).use (orderBehavior "B")).execute ⟨"TestCommand", none⟩ []
        = (["A:in", "B:in", "H", "B:out", "A:out"], Except.ok (Result.Ok 7)) := by
  refine ⟨fun α hs A B H => rfl, fun α hs A B H => rfl, ?_⟩
  rfl

/-- Claim C1 counterexample: the command `TestCommand` has a registered
handler, yet a fault raised inside the pipeline by a behavior is NOT caught by
the innermost stage — `execute` propagates the raised fault to the caller
(outcome `Except.error`), because the source's try/catch only wraps
`handler.handle(cmd)` and behaviors sit outside it. -/
theorem commandBus_behaviorFault_escapes :
    CommandBus.execute
      { handlers := [("TestCommand", fun _ => Eff.pure (ok (1 : Nat)))],
        behaviors := [fun _ _ => Eff.throw (Thrown.jsError ⟨"Error", "behavior boom"⟩)] }
      ⟨"TestCommand", none⟩ []
      = ([], Except.error (Thrown.jsError ⟨"Error", "behavior boom"⟩)) := rfl

/-- Claim C1 (amended): any exception raised by the HANDLER is caught at the
innermost pipeline stage and converted to `Err [message]` (with the fixed
fallback text for non-`Error` values), and `execute` returns it as a normal
value — it never propagates a handler-originated fault; faults raised by a
behavior itself are outside the innermost guard and do propagate. Stated here
for the bus whose behavior chain is empty, so every fault is
handler-originated. -/
theorem commandBus_handlerFault_converted {α : Type} (bus : CommandBus α)
    (handler : ICommandHandler α) (cmd : Cmd) (s s1 : List String) (t : Thrown)
    (hb : bus.behaviors = [])
    (hreg : mapGet bus.handlers cmd.ctor = some handler)
    (hthrow : handler cmd s = (s1, Except.error t)) :
    CommandBus.innermostStage handler cmd s
        = (s1, Except.ok (err [commandFaultMessage t]))
    ∧ bus.execute cmd s = (s1, Except.ok (err [commandFaultMessage t])) := by
  have hinner : CommandBus.innermostStage handler cmd s
      = (s1, Except.ok (err [commandFaultMessage t])) := by
    simp only [CommandBus.innermostStage, Eff.tryCatch, hthrow, Eff.pure]
  refine ⟨hinner, ?_⟩
  simp only [CommandBus.execute, hreg, CommandBus.buildPipeline, hb, List.foldr]
  exact hinner

/-- Witness for `commandBus_handlerFault_converted`: a handler throwing
`new Error('boom')` yields `Err ["boom"]` from `execute`, not a raised fault. -/
theorem commandBus_handlerFault_converted_witness :
    CommandBus.execute
      ({ handlers :=
          [("TestCommand", fun _ => Eff.throw (Thrown.jsError ⟨"Error", "boom"⟩))],
         behaviors := [] } : CommandBus Nat)
      ⟨"TestCommand", none⟩ []
      = ([], Except.ok (err ["boom"])) :=
  (commandBus_handlerFault_converted
    ({ handlers :=
        [("TestCommand", fun _ => Eff.throw (Thrown.jsError ⟨"Error", "boom"⟩))],
       behaviors := [] } : CommandBus Nat)
    (fun _ => Eff.throw (Thrown.jsError ⟨"Error", "boom"⟩))
    ⟨"TestCommand", none⟩ [] [] (Thrown.jsError ⟨"Error", "boom"⟩)
    rfl rfl rfl).2

/-- Claim C4: a query whose type identifier has no registered handler makes
`execute` raise (outcome `Except.error`) a `HandlerNotFoundError` — name field
`"HandlerNotFoundError"` — whose message names the missing identifier and the
`query` category; no `Result` failure is returned. -/
theorem queryBus_unregistered_raises {α : Type} (bus : QueryBus α) (q : Query)
    (s : List String) (h : mapGet bus.handlers q.ctor = none) :
    bus.execute q s
        = (s, Except.error (Thrown.jsError (HandlerNotFoundError "query" q.ctor)))
    ∧ (HandlerNotFoundError "query" q.ctor).name = "HandlerNotFoundError"
    ∧ (HandlerNotFoundError "query" q.ctor).message
        = "No handler registered for query: " ++ q.ctor := by
  refine ⟨?_, rfl, rfl⟩
  simp only [QueryBus.execute, h, Eff.throw]

/-- Witness for `queryBus_unregistered_raises`: the empty query bus and a
query named `Foo`. -/
theorem queryBus_unregistered_raises_witness :
    QueryBus.execute (⟨[], []⟩ : QueryBus Nat) ⟨"Foo"⟩ []
        = ([], Except.error (Thrown.jsError
            ⟨"HandlerNotFoundError", "No handler registered for query: Foo"⟩)) :=
  (queryBus_unregistered_raises (⟨[], []⟩ : QueryBus Nat) ⟨"Foo"⟩ [] rfl).1

/-- Claim C5: on the query path the bus inserts no exception-to-Result
conversion: its innermost stage is the bare handler call (see also the
structural conjuncts of `pipeline_behavior_order`), so on a bus whose own
pipeline runs without middleware, a fault raised by the registered handler
propagates unchanged out of `execute`. -/
theorem queryBus_fault_propagates {α : Type} (bus : QueryBus α)
    (handler : IQueryHandler α) (q : Query) (s s1 : List String) (t : Thrown)
    (hb : bus.behaviors = [])
    (hreg : mapGet bus.handlers q.ctor = some handler)
    (hthrow : handler q s = (s1, Except.error t)) :
    bus.execute q s = (s1, Except.error t) := by
  simp only [QueryBus.execute, hreg, QueryBus.buildPipeline, hb, List.foldr]
  exact hthrow

/-- Witness for `queryBus_fault_propagates`: a handler throwing
`new Error('boom')` makes `execute` raise that same fault. -/
theorem queryBus_fault_propagates_witness :
    QueryBus.execute
      (⟨[("TestQuery", fun _ => Eff.throw (Thrown.jsError ⟨"Error", "boom"⟩))], []⟩
        : QueryBus Nat)
      ⟨"TestQuery"⟩ []
      = ([], Except.error (Thrown.jsError ⟨"Error", "boom"⟩)) :=
  queryBus_fault_propagates
    (⟨[("TestQuery", fun _ => Eff.throw (Thrown.jsError ⟨"Error", "boom"⟩))], []⟩
      : QueryBus Nat)
    (fun _ => Eff.throw (Thrown.jsError ⟨"Error", "boom"⟩))
    ⟨"TestQuery"⟩ [] [] (Thrown.jsError ⟨"Error", "boom"⟩)
    rfl rfl rfl

end AdonisCqrs

namespace AdonisCqrs

/-- Claim C9: when the command exposes a `validate()` capability, the
validation behavior invokes it (the behavior's outcome is determined by the
validator's run); if the validator reports invalid with error list `es`, the
behavior returns `Err es` as a normal value for EVERY continuation `next` —
so next (and hence the handler) is never invoked and nothing is raised; if it
reports valid, the behavior continues with `next command` from the
validator's post-state. -/
theorem validation_behavior_spec {α : Type} (cmd : Cmd)
    (run : Eff (Option Validation)) (v : Validation) (es : List String)
    (s s1 : List String)
    (hcap : cmd.validate = some run)
    (hrun : run s = (s1, Except.ok (some v))) :
    (v.isValid = false → v.errors = some es →
      ∀ next : Cmd → Eff (Result α),
        ValidationCommandBehavior.handle cmd next s = (s1, Except.ok (err es)))
    ∧ (v.isValid = true →
      ∀ next : Cmd → Eff (Result α),
        ValidationCommandBehavior.handle cmd next s = next cmd s1) := by
  constructor
  · intro hbad herr next
    simp only [ValidationCommandBehavior.handle, hcap, Eff.bind, hrun, hbad, herr,
      Bool.not_false, if_true, Option.getD_some, Eff.pure]
  · intro hgood next
    simp only [ValidationCommandBehavior.handle, hcap, Eff.bind, hrun, hgood,
      Bool.not_true, Bool.false_eq_true, if_false]

/-- Witness for `validation_behavior_spec`: an invalid command short-circuits
to its validator's errors while a valid one reaches the handler. -/
theorem validation_behavior_spec_witness :
    ValidationCommandBehavior.handle
        ⟨"C", some (Eff.pure (some ⟨false, some ["Value must be positive"]⟩))⟩
        (fun _ => Eff.pure (ok (5 : Nat))) []
      = ([], Except.ok (err ["Value must be positive"]))
    ∧ ValidationCommandBehavior.handle
        ⟨"C", some (Eff.pure (some ⟨true, none⟩))⟩
        (fun _ => Eff.pure (ok (5 : Nat))) []
      = ([], Except.ok (ok 5)) := by
  constructor
  · exact (validation_behavior_spec
      ⟨"C", some (Eff.pure (some ⟨false, some ["Value must be positive"]⟩))⟩
      (Eff.pure (some ⟨false, some ["Value must be positive"]⟩))
      ⟨false, some ["Value must be positive"]⟩ ["Value must be positive"]
      [] [] rfl rfl).1 rfl rfl (fun _ => Eff.pure (ok (5 : Nat)))
  · exact (validation_behavior_spec
      ⟨"C", some (Eff.pure (some ⟨true, none⟩))⟩
      (Eff.pure (some ⟨true, none⟩))
      ⟨true, none⟩ [] [] [] rfl rfl).2 rfl (fun _ => Eff.pure (ok (5 : Nat)))

/-- Claim C10: when the value thrown by the handler is not an `Error` instance,
the innermost pipeline stage returns the fixed fallback
`Err ["Command execution failed"]`; the conclusion does not depend on the
thrown value `v`, so the original thrown value is not recoverable from the
result. -/
theorem commandBus_nonError_fallback {α : Type} (handler : ICommandHandler α)
    (cmd : Cmd) (s s1 : List String) (v : String)
    (hthrow : handler cmd s = (s1, Except.error (Thrown.nonError v))) :
    CommandBus.innermostStage handler cmd s
      = (s1, Except.ok (err ["Command execution failed"])) := by
  simp only [CommandBus.innermostStage, Eff.tryCatch, hthrow, commandFaultMessage,
    Eff.pure]

/-- Witness for `commandBus_nonError_fallback`: a handler throwing the
non-`Error` value `42`. -/
theorem commandBus_nonError_fallback_witness :
    CommandBus.innermostStage
        (fun _ => Eff.throw (Thrown.nonError "42") : ICommandHandler Nat)
        ⟨"TestCommand", none⟩ []
      = ([], Except.ok (err ["Command execution failed"])) :=
  commandBus_nonError_fallback
    (fun _ => Eff.throw (Thrown.nonError "42") : ICommandHandler Nat)
    ⟨"TestCommand", none⟩ [] [] "42" rfl

end AdonisCqrs
